import Mathlib

/-!
Verification of the authentication/session/rate-limiting core of the
`text-rpg` backend (`src/backend/app`), shallowly embedded in Lean.

Two parallel implementations of the auth endpoints coexist in the source:
`app/api/auth.py` (together with `app/core/dependencies.py` and
`app/core/security.py`) and `app/routers/auth.py` (together with the
`AuthUtils` class of `app/core/auth.py`).  Both are embedded here with
`api_` / `security_` and `routers_` / `authUtils_` name prefixes.

Conventions of the embedding:
- time is a `Nat` of unix seconds; `datetime.now(timezone.utc)` becomes an
  explicit `now` parameter;
- a JWT is a `Jwt` value: its claim dictionary plus the key it was signed
  with; `jwt.decode` checks the key and the `exp` claim;
- `uuid4()` results (jtis, row ids) are explicit parameters;
- the bcrypt collaborator (`passlib`) is modelled by a deterministic
  injective tagging, which preserves exactly the verify/hash interface the
  code relies on;
- a raised `HTTPException(status, detail)` becomes `Except.error
  (HttpError…)`; uncaught non-HTTP exceptions (e.g. a Redis
  `ConnectionError`) are a separate error type where they matter.
-/

/-- HTTP error results, mirroring the `HTTPException` status codes raised
by the auth core (401, 403, 423, 400, 404, 429, 500). -/
inductive HttpError where
  | unauthorized (detail : String)
  | forbidden (detail : String)
  | locked (detail : String)
  | badRequest (detail : String)
  | notFound (detail : String)
  | tooManyRequests
  | internalError (detail : String)
  deriving Repr, DecidableEq

/-- `UserStatus` enum from `app/models/user.py`. -/
inductive UserStatus where
  | active
  | suspended
  | banned
  | pending_verification
  deriving Repr, DecidableEq

/-- The fields of the `User` model (`app/models/user.py`) that the auth
core reads or writes.  Ids are strings (the code passes them through
`str`/`UUID`, which we model as the identity). -/
structure UserRec where
  id : String
  username : String
  email : String
  hashed_password : String
  status : UserStatus
  login_attempts : Nat
  locked_until : Option Nat
  created_at : Nat
  updated_at : Nat
  last_login : Option Nat
  deriving Repr, DecidableEq

/-- The fields of the `UserSession` model (`app/models/user.py`) that the
auth core reads or writes. -/
structure UserSession where
  id : Nat
  user_id : String
  token_jti : String
  is_active : Bool
  expires_at : Nat
  last_activity : Nat
  deriving Repr, DecidableEq

/-- A decoded JWT claim dictionary.  `token_type` is the claim written by
`app/core/security.py`; `type` is the claim written by
`AuthUtils.create_refresh_token` in `app/core/auth.py` (its
`create_access_token` writes no type claim at all). -/
structure Payload where
  sub : Option String := none
  user_id : Option String := none
  jti : Option String := none
  exp : Nat := 0
  iat : Nat := 0
  token_type : Option String := none
  type : Option String := none
  deriving Repr, DecidableEq

/-- A serialized token: its payload plus the secret it was signed with. -/
structure Jwt where
  payload : Payload
  key : Nat
  deriving Repr, DecidableEq

/-- Result of `jwt.decode`: the payload, or one of the two PyJWT/jose
failure classes the code distinguishes. -/
inductive DecodeResult where
  | ok (payload : Payload)
  | expiredSignature
  | invalidToken
  deriving Repr, DecidableEq

/-- `jwt.decode(token, secret, algorithms=[…])`: checks the signature and
the registered `exp` claim. -/
def jwtDecode (token : Jwt) (secret : Nat) (now : Nat) : DecodeResult :=
  if token.key ≠ secret then .invalidToken
  else if token.payload.exp ≤ now then .expiredSignature
  else .ok token.payload

/-- Model of the bcrypt collaborator: `pwd_context.hash`
(`create_password_hash` in `app/core/security.py`).  Salting is dropped;
the verify/hash contract the code relies on is preserved. -/
def create_password_hash (password : String) : String :=
  "bcrypt$" ++ password

/-- Model of `pwd_context.verify` (`verify_password` in
`app/core/security.py` and `AuthUtils.verify_password`). -/
def verify_password (plain_password hashed_password : String) : Bool :=
  hashed_password == "bcrypt$" ++ plain_password

/-- `TokenData` from `app/core/security.py`. -/
structure TokenData where
  username : String
  user_id : String
  jti : String
  token_type : String
  deriving Repr, DecidableEq

/-- `create_access_token` from `app/core/security.py`: embeds the caller's
`data` dict (here `sub` and `user_id`, as passed by `create_token_pair`),
plus `exp = now + expires_delta`, `iat`, a fresh `jti` (`uuid4()`, passed
in) and `token_type = "access"`, signed with the secret. -/
def security_create_access_token (sub user_id : String)
    (expires_delta now : Nat) (jtiFresh : String) (secret : Nat) : Jwt :=
  { payload :=
      { sub := some sub
        user_id := some user_id
        jti := some jtiFresh
        exp := now + expires_delta
        iat := now
        token_type := some "access" }
    key := secret }

/-- `create_refresh_token` from `app/core/security.py`: same as the access
variant but with `token_type = "refresh"`. -/
def security_create_refresh_token (sub user_id : String)
    (expires_delta now : Nat) (jtiFresh : String) (secret : Nat) : Jwt :=
  { payload :=
      { sub := some sub
        user_id := some user_id
        jti := some jtiFresh
        exp := now + expires_delta
        iat := now
        token_type := some "refresh" }
    key := secret }

/-- `verify_token` from `app/core/security.py`.  Decodes, then checks the
`token_type` claim against the expected type and that `sub`, `user_id`
and `jti` are present.  Every failure — including an expired token, since
`ExpiredSignatureError` is a `PyJWTError` — raises the same
`credentials_exception` (401 "Could not validate credentials"). -/
def security_verify_token (token : Jwt) (token_type : String)
    (secret now : Nat) : Except HttpError TokenData :=
  let credentials_exception := HttpError.unauthorized "Could not validate credentials"
  match jwtDecode token secret now with
  | .expiredSignature => .error credentials_exception
  | .invalidToken => .error credentials_exception
  | .ok payload =>
    if payload.token_type ≠ some token_type then .error credentials_exception
    else
      match payload.sub, payload.user_id, payload.jti with
      | some username, some user_id, some jti =>
          .ok { username := username, user_id := user_id, jti := jti,
                token_type := token_type }
      | _, _, _ => .error credentials_exception

/-- The access/refresh pair returned by `create_token_pair`
(`app/core/security.py`): access expires in 15 minutes, refresh in
7 days, both carrying `sub = username` and `user_id`. -/
structure TokenPair where
  access_token : Jwt
  refresh_token : Jwt
  expires_in : Nat
  deriving Repr, DecidableEq

/-- `create_token_pair` from `app/core/security.py`. -/
def create_token_pair (user_id username : String) (now : Nat)
    (accessJti refreshJti : String) (secret : Nat) : TokenPair :=
  { access_token :=
      security_create_access_token username user_id (15 * 60) now accessJti secret
    refresh_token :=
      security_create_refresh_token username user_id (7 * 86400) now refreshJti secret
    expires_in := 15 * 60 }

/-- `AuthUtils.create_access_token` from `app/core/auth.py`: adds `exp`,
`iat` and `jti` to the caller's data (the routers pass
`{"sub": str(user.id)}`) — note it writes no type claim. -/
def authUtils_create_access_token (sub : String) (expires_delta now : Nat)
    (jtiFresh : String) (secret : Nat) : Jwt :=
  { payload :=
      { sub := some sub
        jti := some jtiFresh
        exp := now + expires_delta
        iat := now }
    key := secret }

/-- `AuthUtils.create_refresh_token` from `app/core/auth.py`: adds `exp`,
`iat`, `jti` and `type = "refresh"`. -/
def authUtils_create_refresh_token (sub : String) (expires_delta now : Nat)
    (jtiFresh : String) (secret : Nat) : Jwt :=
  { payload :=
      { sub := some sub
        jti := some jtiFresh
        exp := now + expires_delta
        iat := now
        type := some "refresh" }
    key := secret }

/-- `AuthUtils.verify_token` from `app/core/auth.py`: decode only — it
checks signature and expiry and returns the raw payload, with no
expected-type parameter and no claim checks. -/
def authUtils_verify_token (token : Jwt) (secret now : Nat) :
    Except HttpError Payload :=
  match jwtDecode token secret now with
  | .expiredSignature => .error (.unauthorized "Token has expired")
  | .invalidToken => .error (.unauthorized "Invalid token")
  | .ok payload => .ok payload


/-- Deactivate the first session whose `token_jti` matches, leaving the
rest unchanged — the effect of mutating the row found by
`select(UserSession).where(UserSession.token_jti == token_jti) … .first()`. -/
def deactivateFirstByJti : List UserSession → String → List UserSession
  | [], _ => []
  | s :: rest, jti =>
    if s.token_jti == jti then { s with is_active := false } :: rest
    else s :: deactivateFirstByJti rest jti

/-- `AuthUtils.revoke_user_session` from `app/core/auth.py`: finds the
session row with that jti — with no filter on `is_active` — marks it
inactive and returns `True`; returns `False` only when no row exists. -/
def revoke_user_session (sessions : List UserSession) (token_jti : String) :
    Bool × List UserSession :=
  if sessions.any (fun s => s.token_jti == token_jti) then
    (true, deactivateFirstByJti sessions token_jti)
  else
    (false, sessions)

/-- `AuthUtils.is_token_revoked` from `app/core/auth.py`: true iff no
session row with that jti is active. -/
def is_token_revoked (sessions : List UserSession) (token_jti : String) : Bool :=
  (sessions.find? (fun s => s.token_jti == token_jti && s.is_active)).isNone

/-- The session query of `verify_refresh_token`
(`app/core/dependencies.py` lines 276–281): the first session with the
user's id, the token's jti, and `is_active == True`. -/
def findActiveSession (sessions : List UserSession) (user_id jti : String) :
    Option UserSession :=
  sessions.find? (fun s =>
    s.user_id == user_id && s.token_jti == jti && s.is_active)

/-- The revoke-all loop shared by the routers logout
(`app/routers/auth.py` lines 420–427) and the api change-password
(`app/api/auth.py` lines 497–505): every active session of the user is
marked inactive. -/
def revoke_all_for_user (sessions : List UserSession) (user_id : String) :
    List UserSession :=
  sessions.map (fun s =>
    if s.user_id == user_id && s.is_active then { s with is_active := false }
    else s)

/-- Truthiness-plus-comparison pattern `x and x > threshold` used on
`locked_until` fields (`None` is falsy). -/
def locked_after (locked_until : Option Nat) (threshold : Nat) : Bool :=
  match locked_until with
  | some t => threshold < t
  | none => false

/-- `get_current_user` from `app/core/dependencies.py`: bearer token
required, verified with expected type `access`; then the user is loaded
and must exist and be active; finally the lockout check of lines 114–119,
which compares `locked_until` with `created_at` — not with the current
time. -/
def dep_get_current_user (credentials : Option Jwt) (users : List UserRec)
    (secret now : Nat) : Except HttpError UserRec :=
  match credentials with
  | none => .error (.unauthorized "Not authenticated")
  | some tok =>
    match security_verify_token tok "access" secret now with
    | .error e => .error e
    | .ok token_data =>
      match users.find? (fun u => u.id == token_data.user_id) with
      | none => .error (.unauthorized "User not found")
      | some user =>
        if user.status ≠ .active then
          .error (.forbidden "Account is not active")
        else if locked_after user.locked_until user.created_at then
          .error (.locked "Account is temporarily locked due to too many failed login attempts")
        else
          .ok user

/-- `verify_refresh_token` from `app/core/dependencies.py`: bearer token
required, verified with expected type `refresh`; the user must exist and
be active; and an active session row with the token's jti must exist,
otherwise 401 "Invalid or expired refresh token" — the `SessionRevoked`
outcome of the spec. -/
def verify_refresh_token (credentials : Option Jwt) (users : List UserRec)
    (sessions : List UserSession) (secret now : Nat) :
    Except HttpError (UserRec × String) :=
  match credentials with
  | none => .error (.unauthorized "Refresh token required")
  | some tok =>
    match security_verify_token tok "refresh" secret now with
    | .error e => .error e
    | .ok token_data =>
      match users.find? (fun u => u.id == token_data.user_id) with
      | none => .error (.unauthorized "User not found")
      | some user =>
        if user.status ≠ .active then
          .error (.forbidden "Account is not active")
        else
          match findActiveSession sessions user.id token_data.jti with
          | none => .error (.unauthorized "Invalid or expired refresh token")
          | some _ => .ok (user, token_data.jti)

/-- Replace the first user satisfying the predicate — the effect of
mutating the ORM object returned by a `.first()` query and committing. -/
def replaceFirstUser : List UserRec → (UserRec → Bool) → UserRec → List UserRec
  | [], _, _ => []
  | u :: rest, p, u' =>
    if p u then u' :: rest else u :: replaceFirstUser rest p u'

/-- Python's `str.lower()`, written as a character map so that it
evaluates (extensionally it is `String.toLower`). -/
def pyLower (s : String) : String :=
  String.mk (s.data.map Char.toLower)

/-- The user lookup of the api login (`app/api/auth.py` lines 136–141):
stored username or email compared for exact equality against the
lower-cased input. -/
def api_login_lookup (identifier : String) (u : UserRec) : Bool :=
  u.username == pyLower identifier || u.email == pyLower identifier

/-- `login_user` from `app/api/auth.py` (lines 119–213).  Order of checks:
user lookup, lockout (`locked_until > now`, before any password work),
password (on failure increment `login_attempts` and set
`locked_until = now + 30 min` upon reaching 5), account status; on
success reset the counter and lockout, set `last_login`, mint a token
pair and create a session row keyed by the refresh token's jti, expiring
in 7 days (1 day without `remember_me`).  Returns the response paired
with the updated user table and session table. -/
def api_login (users : List UserRec) (sessions : List UserSession)
    (username password : String) (remember_me : Bool)
    (now : Nat) (accessJti refreshJti : String) (sessionId : Nat)
    (secret : Nat) :
    Except HttpError TokenPair × List UserRec × List UserSession :=
  match users.find? (api_login_lookup username) with
  | none => (.error (.unauthorized "Invalid credentials"), users, sessions)
  | some user =>
    if locked_after user.locked_until now then
      (.error (.locked "Account temporarily locked due to too many failed attempts"),
       users, sessions)
    else if ¬ verify_password password user.hashed_password then
      let attempts := user.login_attempts + 1
      let user' :=
        { user with
            login_attempts := attempts
            locked_until :=
              if 5 ≤ attempts then some (now + 30 * 60) else user.locked_until }
      (.error (.unauthorized "Invalid credentials"),
       replaceFirstUser users (api_login_lookup username) user', sessions)
    else if user.status ≠ .active then
      (.error (.forbidden "Account is not active"), users, sessions)
    else
      let user' :=
        { user with login_attempts := 0, locked_until := none,
                    last_login := some now }
      let tokens := create_token_pair user.id user.username now accessJti refreshJti secret
      let user_session : UserSession :=
        { id := sessionId
          user_id := user.id
          token_jti := refreshJti
          is_active := true
          expires_at := now + (if remember_me then 7 else 1) * 86400
          last_activity := now }
      (.ok tokens,
       replaceFirstUser users (api_login_lookup username) user',
       sessions ++ [user_session])

/-- Rotation step of the api refresh handler (`app/api/auth.py` lines
241–252): the first active session row matching the user id and the old
jti gets its `token_jti` replaced by the new refresh token's jti and its
`last_activity` refreshed. -/
def rotateFirstActiveSession :
    List UserSession → String → String → String → Nat → List UserSession
  | [], _, _, _, _ => []
  | s :: rest, uid, oldJti, newJti, now =>
    if s.user_id == uid && s.token_jti == oldJti && s.is_active then
      { s with token_jti := newJti, last_activity := now } :: rest
    else s :: rotateFirstActiveSession rest uid oldJti newJti now

/-- `refresh_token` from `app/api/auth.py` (lines 222–263), composed with
its `verify_refresh_token` dependency: on success mints a new pair and
rewrites the session row's jti to the new refresh token's jti (the jti
read back by `verify_token(tokens.refresh_token, "refresh")`). -/
def api_refresh_token (credentials : Option Jwt) (users : List UserRec)
    (sessions : List UserSession) (secret now : Nat)
    (accessJti refreshJti : String) :
    Except HttpError (TokenPair × List UserSession) :=
  match verify_refresh_token credentials users sessions secret now with
  | .error e => .error e
  | .ok (user, old_jti) =>
    let tokens := create_token_pair user.id user.username now accessJti refreshJti secret
    let sessions' :=
      match findActiveSession sessions user.id old_jti with
      | some _ => rotateFirstActiveSession sessions user.id old_jti refreshJti now
      | none => sessions
    .ok (tokens, sessions')

/-- `max(sessions, key=lambda s: s.last_activity)`: the first element with
the maximal `last_activity`. -/
def maxByLastActivity (s0 : UserSession) (rest : List UserSession) : UserSession :=
  rest.foldl (fun best s => if best.last_activity < s.last_activity then s else best) s0

/-- Deactivate the session row with the given primary key. -/
def deactivateById (sessions : List UserSession) (sid : Nat) : List UserSession :=
  sessions.map (fun s => if s.id == sid then { s with is_active := false } else s)

/-- `logout_user` from `app/api/auth.py` (lines 272–310), composed with
its `get_current_user` dependency (which FastAPI resolves before the
handler body runs).  The handler itself wraps all token work in
`try/except: pass` and always returns 204; but a credential that fails
`get_current_user` never reaches the handler. -/
def api_logout_user (credentials : Option Jwt) (users : List UserRec)
    (sessions : List UserSession) (secret now : Nat) :
    Except HttpError (List UserSession) :=
  match dep_get_current_user credentials users secret now with
  | .error e => .error e
  | .ok current_user =>
    match credentials with
    | none => .ok sessions
    | some tok =>
      match security_verify_token tok "access" secret now with
      | .error _ => .ok sessions
      | .ok _ =>
        match sessions.filter
            (fun s => s.user_id == current_user.id && s.is_active) with
        | [] => .ok sessions
        | s0 :: rest =>
          .ok (deactivateById sessions (maxByLastActivity s0 rest).id)

/-- `change_password` from `app/api/auth.py` (lines 470–510): verify the
current password (400 on mismatch), store the new hash, update
`updated_at`, and mark every active session of the user inactive. -/
def api_change_password (current_user : UserRec)
    (sessions : List UserSession) (current_password new_password : String)
    (now : Nat) : Except HttpError (UserRec × List UserSession) :=
  if ¬ verify_password current_password current_user.hashed_password then
    .error (.badRequest "Current password is incorrect")
  else
    .ok ({ current_user with
             hashed_password := create_password_hash new_password
             updated_at := now },
         revoke_all_for_user sessions current_user.id)

/-- `get_current_user` from `app/routers/auth.py` (lines 44–101):
`AuthUtils.verify_token` (no expected type), `sub` required, jti
revocation check against the session table, user lookup by `sub`, status
check.  A missing jti claim queries for a `NULL` jti, matches no row, and
is therefore reported revoked. -/
def routers_get_current_user (credentials : Jwt) (users : List UserRec)
    (sessions : List UserSession) (secret now : Nat) :
    Except HttpError UserRec :=
  match authUtils_verify_token credentials secret now with
  | .error e => .error e
  | .ok payload =>
    match payload.sub with
    | none => .error (.unauthorized "Invalid token payload")
    | some user_id =>
      let revoked :=
        match payload.jti with
        | some jti => is_token_revoked sessions jti
        | none => true
      if revoked then .error (.unauthorized "Token has been revoked")
      else
        match users.find? (fun u => u.id == user_id) with
        | none => .error (.unauthorized "User not found")
        | some user =>
          if user.status ≠ .active then
            .error (.unauthorized "User account is not active")
          else .ok user

/-- `AuthUtils.authenticate_user` from `app/core/auth.py`: lookup by
username then email, both case-insensitively (`ilike`), then password
verification.  No lockout bookkeeping of any kind. -/
def authenticate_user (users : List UserRec) (username password : String) :
    Option UserRec :=
  let byName := users.find? (fun u => pyLower u.username == pyLower username)
  let found :=
    match byName with
    | some u => some u
    | none => users.find? (fun u => pyLower u.email == pyLower username)
  match found with
  | none => none
  | some u => if verify_password password u.hashed_password then some u else none

/-- `login_user` from `app/routers/auth.py` (lines 226–311):
`authenticate_user`, status check, token pair from `AuthUtils` (the
session row is keyed by the *access* token's jti and expiry), reset of
`login_attempts`, `last_login`.  Failed attempts are not counted and
`locked_until` is never consulted. -/
def routers_login (users : List UserRec) (sessions : List UserSession)
    (username password : String) (remember_me : Bool)
    (now : Nat) (accessJti refreshJti : String) (sessionId : Nat)
    (secret : Nat) :
    Except HttpError (UserRec × Jwt × Jwt × List UserRec × List UserSession) :=
  match authenticate_user users username password with
  | none => .error (.unauthorized "Incorrect username or password")
  | some user =>
    if user.status ≠ .active then .error (.unauthorized "Account is not active")
    else
      let access_token := authUtils_create_access_token user.id (15 * 60) now accessJti secret
      let refresh_token :=
        authUtils_create_refresh_token user.id
          ((if remember_me then 7 else 1) * 86400) now refreshJti secret
      let user_session : UserSession :=
        { id := sessionId
          user_id := user.id
          token_jti := accessJti
          is_active := true
          expires_at := now + 15 * 60
          last_activity := now }
      let user' := { user with last_login := some now, login_attempts := 0 }
      .ok (user', access_token, refresh_token,
           replaceFirstUser users (fun u => u.id == user.id) user',
           sessions ++ [user_session])

/-- `refresh_token` from `app/routers/auth.py` (lines 315–391):
`AuthUtils.verify_token`, manual `type == "refresh"` check, user lookup
by `sub`, then a brand-new token pair and a brand-new session row keyed
by the *new access* token's jti.  The presented token's session is never
consulted — no revocation check — and never rotated. -/
def routers_refresh_token (users : List UserRec) (sessions : List UserSession)
    (refresh_data : Jwt) (now : Nat) (accessJti refreshJti : String)
    (sessionId : Nat) (secret : Nat) :
    Except HttpError ((Jwt × Jwt) × List UserSession) :=
  match authUtils_verify_token refresh_data secret now with
  | .error e => .error e
  | .ok payload =>
    if payload.type ≠ some "refresh" then
      .error (.unauthorized "Invalid token type")
    else
      match payload.sub with
      | none => .error (.unauthorized "Invalid token payload")
      | some user_id =>
        match users.find? (fun u => u.id == user_id) with
        | none => .error (.unauthorized "User not found or inactive")
        | some user =>
          if user.status ≠ .active then
            .error (.unauthorized "User not found or inactive")
          else
            let new_access_token :=
              authUtils_create_access_token user.id (15 * 60) now accessJti secret
            let new_refresh_token :=
              authUtils_create_refresh_token user.id (7 * 86400) now refreshJti secret
            let user_session : UserSession :=
              { id := sessionId
                user_id := user.id
                token_jti := accessJti
                is_active := true
                expires_at := now + 15 * 60
                last_activity := now }
            .ok ((new_access_token, new_refresh_token),
                 sessions ++ [user_session])

/-- `logout_user` from `app/routers/auth.py` (lines 395–444), composed
with its `get_current_user` dependency: with `revoke_all_sessions` every
active session of the user is deactivated, otherwise
`revoke_user_session` on the presented access token's jti. -/
def routers_logout_user (revoke_all_sessions : Bool) (credentials : Jwt)
    (users : List UserRec) (sessions : List UserSession) (secret now : Nat) :
    Except HttpError (List UserSession) :=
  match routers_get_current_user credentials users sessions secret now with
  | .error e => .error e
  | .ok current_user =>
    match authUtils_verify_token credentials secret now with
    | .error _ => .error (.internalError "Logout failed")
    | .ok payload =>
      if revoke_all_sessions then
        .ok (revoke_all_for_user sessions current_user.id)
      else
        match payload.jti with
        | some jti => .ok (revoke_user_session sessions jti).2
        | none => .ok sessions

/-- `change_password` from `app/routers/auth.py` (lines 505–551): verify
the current password (400 on mismatch), store the new hash, update
`updated_at` — and nothing else: the session table is untouched. -/
def routers_change_password (current_user : UserRec)
    (current_password new_password : String) (now : Nat) :
    Except HttpError UserRec :=
  if ¬ verify_password current_password current_user.hashed_password then
    .error (.badRequest "Current password is incorrect")
  else
    .ok { current_user with
            hashed_password := create_password_hash new_password
            updated_at := now }

/-- A Redis sorted set, as the rate limiter uses it: a list of
(member, score) pairs with distinct members. -/
abbrev ZSet := List (String × Nat)

/-- `ZREMRANGEBYSCORE key min max`: drop entries whose score lies in the
closed interval.  Scores are non-negative; the lower bound is an `Int`
because `window_start = now - window` can be negative in Python. -/
def zremrangebyscore (z : ZSet) (minScore maxScore : Int) : ZSet :=
  z.filter (fun p =>
    decide ((p.2 : Int) < minScore) || decide (maxScore < (p.2 : Int)))

/-- `ZCARD`. -/
def zcard (z : ZSet) : Nat := z.length

/-- `ZADD key {member: score}`: update the score when the member exists,
append otherwise.  Both call sites use `str(current_time)` as the member,
so two requests in the same second share one member. -/
def zadd (z : ZSet) (member : String) (score : Nat) : ZSet :=
  if z.any (fun p => p.1 == member) then
    z.map (fun p => if p.1 == member then (member, score) else p)
  else z ++ [(member, score)]

/-- `ZREM key member`. -/
def zrem (z : ZSet) (member : String) : ZSet :=
  z.filter (fun p => p.1 != member)

/-- The `rate_limit_info` dict built by `RateLimiter.is_allowed`
(`app/core/rate_limiting.py`). -/
structure RateLimitDetails where
  limit : Nat
  remaining : Nat
  reset : Nat
  retry_after : Option Nat
  current_requests : Nat
  window : Nat
  deriving Repr, DecidableEq

/-- `RateLimiter.is_allowed` from `app/core/rate_limiting.py` (lines
51–114): prune the window, count, add the current timestamp, decide on
the pre-add count.  A denied request's entry is **not** removed.  The
`expire` pipeline step only sets a key TTL and does not change the set's
contents.  Python's `max(0, limit - current - 1)` agrees with truncated
`Nat` subtraction. -/
def rateLimiter_is_allowed (z : ZSet) (limit window now : Nat) :
    (Bool × RateLimitDetails) × ZSet :=
  let window_start : Int := (now : Int) - (window : Int)
  let z1 := zremrangebyscore z 0 window_start
  let current_requests := zcard z1
  let z2 := zadd z1 (toString now) now
  let is_allowed := decide (current_requests < limit)
  (⟨is_allowed,
    { limit := limit
      remaining := limit - current_requests - 1
      reset := now + window
      retry_after := if is_allowed then none else some window
      current_requests := current_requests + 1
      window := window }⟩, z2)

/-- Outcome of the `check_rate_limit` FastAPI dependency: the returned
info dict, the 429 `HTTPException`, or an uncaught store exception that
propagates to the caller. -/
inductive CheckRateLimitResult where
  | allowed (details : RateLimitDetails)
  | rateLimited (details : RateLimitDetails)
  | raised (e : String)
  deriving Repr, DecidableEq

/-- `check_rate_limit` from `app/core/rate_limiting.py` (lines 159–212):
key selection (`user:<id>` else `ip:<client_ip>`), then
`rate_limiter.is_allowed` with **no** exception handling — a failing
store operation propagates out of the dependency. -/
def check_rate_limit (store : Except String ZSet) (user_id : Option String)
    (client_ip : String) (limit window now : Nat) : CheckRateLimitResult :=
  let _key :=
    match user_id with
    | some uid => "user:" ++ uid
    | none => "ip:" ++ client_ip
  match store with
  | .error e => .raised e
  | .ok z =>
    let ((is_allowed, details), _) := rateLimiter_is_allowed z limit window now
    if is_allowed then .allowed details else .rateLimited details

/-- `RateLimitMiddleware._check_rate_limit` from
`app/middleware/rate_limit.py` (lines 161–228).  The store argument is
the outcome of talking to Redis: an exception anywhere in the `try` block
is caught and converted to allow (fail open); an unavailable client
(`redis_client is None`) likewise allows.  On the success path the
pipeline prunes, counts, adds `str(current_time)`, and when the pre-add
count reaches the limit the just-added member is removed again.  Returns
`((allowed, remaining, reset_time), store')`. -/
def middleware_check_rate_limit (store : Except String ZSet)
    (hasRedisClient : Bool) (rate_limit window_size now : Nat) :
    (Bool × Nat × Nat) × Except String ZSet :=
  if ¬ hasRedisClient then
    ((true, rate_limit - 1, now + window_size), store)
  else
    match store with
    | .error e => ((true, rate_limit - 1, now + window_size), .error e)
    | .ok z =>
      let window_start : Int := (now : Int) - (window_size : Int)
      let z1 := zremrangebyscore z 0 window_start
      let current_requests := zcard z1
      let z2 := zadd z1 (toString now) now
      if rate_limit ≤ current_requests then
        ((false, 0, now + window_size), .ok (zrem z2 (toString now)))
      else
        ((true, rate_limit - current_requests - 1, now + window_size), .ok z2)

/-! Concrete sample data used by witnesses and counterexamples. -/

/-- A registered, active user. -/
def sampleUser : UserRec :=
  { id := "u1"
    username := "alice"
    email := "alice@example.com"
    hashed_password := create_password_hash "pw"
    status := .active
    login_attempts := 0
    locked_until := none
    created_at := 0
    updated_at := 0
    last_login := none }

/-- An active session of `sampleUser` tracking refresh jti `"j"`. -/
def sampleSession : UserSession :=
  { id := 0
    user_id := "u1"
    token_jti := "j"
    is_active := true
    expires_at := 1000
    last_activity := 0 }

/-- `sampleUser` with a lockout that expired long ago (locked until 50,
created at 10). -/
def sampleLockedOutUser : UserRec :=
  { sampleUser with locked_until := some 50, created_at := 10 }

/-- A well-signed access token for `sampleUser`, valid around `now = 100000`. -/
def sampleAccessTok : Jwt :=
  security_create_access_token "alice" "u1" 900 99999 "ja" 42

/-- A well-signed refresh token for `sampleUser` with jti `"jr"`. -/
def sampleRefreshTok : Jwt :=
  security_create_refresh_token "alice" "u1" 604800 0 "jr" 42

/-- A well-signed refresh token whose jti `"j"` matches `sampleSession`. -/
def sampleRefreshTokJ : Jwt :=
  security_create_refresh_token "alice" "u1" 604800 0 "j" 42

/-- A token signed with the wrong key (7 instead of 42): its signature
does not validate. -/
def wrongKeyTok : Jwt :=
  security_create_access_token "alice" "u1" 900 0 "j9" 7

/-- A routers-flow refresh token (the `AuthUtils` shape) with jti
`"oldjti"`, signed with the right key. -/
def sampleRoutersRefreshTok : Jwt :=
  authUtils_create_refresh_token "u1" 604800 0 "oldjti" 42

/-- An active session of `sampleUser` tracking jti `"oldjti"`. -/
def sampleRoutersSession : UserSession :=
  { id := 0
    user_id := "u1"
    token_jti := "oldjti"
    is_active := true
    expires_at := 999999
    last_activity := 0 }

/-! Theorems. -/

/-- C5: token type isolation.  `verify_token` from `app/core/security.py`
(the verifier with an `expected_type` parameter) rejects every
well-signed, unexpired refresh token when an access token is expected,
and every well-signed, unexpired access token when a refresh token is
expected, with the 401 `credentials_exception` — the code's
`InvalidToken` outcome.  (`AuthUtils.verify_token` in `app/core/auth.py`
takes no expected type; the spec's `verify(token, expected_type)` is the
typed verifier modelled here.) -/
theorem c5_token_type_isolation :
    (∀ (sub user_id : String) (expires_delta mintedAt : Nat)
       (jti : String) (secret now : Nat),
      now < mintedAt + expires_delta →
      security_verify_token
          (security_create_refresh_token sub user_id expires_delta mintedAt jti secret)
          "access" secret now
        = .error (.unauthorized "Could not validate credentials")) ∧
    (∀ (sub user_id : String) (expires_delta mintedAt : Nat)
       (jti : String) (secret now : Nat),
      now < mintedAt + expires_delta →
      security_verify_token
          (security_create_access_token sub user_id expires_delta mintedAt jti secret)
          "refresh" secret now
        = .error (.unauthorized "Could not validate credentials")) := by
  constructor <;>
    · intro sub user_id expires_delta mintedAt jti secret now h
      simp [security_verify_token, security_create_refresh_token,
            security_create_access_token, jwtDecode, Nat.not_le.mpr h]

/-- Witness for C5 at concrete inputs: a refresh token minted at 0 with a
7-day ttl, checked as access at time 10, and the symmetric case. -/
theorem c5_witness :
    security_verify_token (security_create_refresh_token "alice" "u1" 604800 0 "jr" 42)
        "access" 42 10
      = .error (.unauthorized "Could not validate credentials") ∧
    security_verify_token (security_create_access_token "alice" "u1" 900 0 "ja" 42)
        "refresh" 42 10
      = .error (.unauthorized "Could not validate credentials") :=
  ⟨c5_token_type_isolation.1 "alice" "u1" 604800 0 "jr" 42 10 (by decide),
   c5_token_type_isolation.2 "alice" "u1" 900 0 "ja" 42 10 (by decide)⟩

/-- C10: the lockout check in `get_current_user`
(`app/core/dependencies.py` lines 114–119) compares `locked_until`
against `created_at`, not against the current time.  So whenever a valid
bearer token resolves to an active user whose `locked_until` is set and
exceeds `created_at`, the request is rejected 423 — for every value of
`now` at which the token verifies, in particular long after the lockout
has elapsed. -/
theorem c10_get_current_user_lockout_ignores_now :
    ∀ (tok : Jwt) (users : List UserRec) (secret now : Nat)
      (td : TokenData) (user : UserRec) (t : Nat),
      security_verify_token tok "access" secret now = .ok td →
      users.find? (fun u => u.id == td.user_id) = some user →
      user.status = .active →
      user.locked_until = some t →
      user.created_at < t →
      dep_get_current_user (some tok) users secret now
        = .error (.locked "Account is temporarily locked due to too many failed login attempts") := by
  intro tok users secret now td user t hver hfind hstatus hlock hgt
  simp [dep_get_current_user, hver, hfind, hstatus, locked_after, hlock, hgt]

/-- Witness for C10: `sampleLockedOutUser` was locked until time 50 and
created at time 10; at `now = 100000` — long after the lockout elapsed —
a valid access token is still rejected with 423. -/
theorem c10_witness :
    dep_get_current_user (some sampleAccessTok) [sampleLockedOutUser] 42 100000
      = .error (.locked "Account is temporarily locked due to too many failed login attempts") :=
  c10_get_current_user_lockout_ignores_now sampleAccessTok [sampleLockedOutUser]
    42 100000 { username := "alice", user_id := "u1", jti := "ja", token_type := "access" }
    sampleLockedOutUser 50 rfl rfl rfl rfl (by decide)

/-- C8: the claim says logout returns normally for every bearer
credential, including malformed or wrongly-signed tokens (and the handler
body of `logout_user` in `app/api/auth.py` even documents this with its
`try/except: pass`).  But the route's `get_current_user` dependency runs
first and raises 401 for any token that fails to parse, so the tolerant
handler is never reached: logout with a wrongly-signed token fails with
401 instead of reporting success.  This theorem evaluates the composed
route at such a failing input. -/
theorem c8_logout_propagates_parse_error :
    api_logout_user (some wrongKeyTok) [sampleUser] [sampleSession] 42 10
      = .error (.unauthorized "Could not validate credentials") := by
  rfl

/-- `deactivateFirstByJti` does not change any session's `token_jti`. -/
theorem deactivateFirstByJti_map_jti (l : List UserSession) (jti : String) :
    (deactivateFirstByJti l jti).map (fun s => s.token_jti)
      = l.map (fun s => s.token_jti) := by
  induction l with
  | nil => rfl
  | cons s rest ih =>
    simp only [deactivateFirstByJti]
    split <;> simp [ih]

/-- Distinctness of jtis survives `deactivateFirstByJti`. -/
theorem pairwise_jti_deactivateFirstByJti (l : List UserSession) (jti : String)
    (hU : l.Pairwise (fun a b => a.token_jti ≠ b.token_jti)) :
    (deactivateFirstByJti l jti).Pairwise (fun a b => a.token_jti ≠ b.token_jti) := by
  have h1 : ((deactivateFirstByJti l jti).map (fun s => s.token_jti)).Pairwise
      (fun a b => a ≠ b) := by
    rw [deactivateFirstByJti_map_jti]
    exact List.pairwise_map.mpr hU
  exact List.pairwise_map.mp h1

/-- `deactivateFirstByJti` preserves whether a row with the jti exists. -/
theorem deactivateFirstByJti_any (l : List UserSession) (jti : String) :
    (deactivateFirstByJti l jti).any (fun s => s.token_jti == jti)
      = l.any (fun s => s.token_jti == jti) := by
  induction l with
  | nil => rfl
  | cons s rest ih =>
    simp only [deactivateFirstByJti]
    split <;> simp_all

/-- When no row carries the jti at all, the jti counts as revoked. -/
theorem is_token_revoked_of_not_any (l : List UserSession) (jti : String)
    (h : l.any (fun s => s.token_jti == jti) = false) :
    is_token_revoked l jti = true := by
  simp only [is_token_revoked, Option.isNone_iff_eq_none, List.find?_eq_none]
  intro s hs
  simp only [List.any_eq_false] at h
  simp [h s hs]

/-- After `deactivateFirstByJti`, a jti that occurs on at most one row
(the database's unique constraint) has no active row left. -/
theorem is_token_revoked_deactivateFirstByJti (l : List UserSession) (jti : String)
    (hU : l.Pairwise (fun a b => a.token_jti ≠ b.token_jti)) :
    is_token_revoked (deactivateFirstByJti l jti) jti = true := by
  induction l with
  | nil => rfl
  | cons s rest ih =>
    rcases List.pairwise_cons.mp hU with ⟨hhead, htail⟩
    simp only [deactivateFirstByJti]
    split
    case isTrue h =>
      have hj : s.token_jti = jti := by simpa using h
      simp only [is_token_revoked, List.find?_cons]
      have hrest : rest.find? (fun t => t.token_jti == jti && t.is_active) = none := by
        rw [List.find?_eq_none]
        intro t ht
        have hne := hhead t ht
        rw [hj] at hne
        simp [hne.symm]
      simp [hrest]
    case isFalse h =>
      have hne : (s.token_jti == jti) = false := by
        simpa using h
      simp only [is_token_revoked, List.find?_cons, hne]
      simpa [is_token_revoked] using ih htail

/-- C9 counterexample.  The claim says the first `revoke_by_jti` returns
true iff a *currently active* session with the jti existed, and that the
second call returns false.  `AuthUtils.revoke_user_session` selects the
row without filtering on `is_active`, so revoking the same jti twice
returns `True` both times, and even a first call on an already-inactive
row returns `True`. -/
theorem c9_counterexample :
    (revoke_user_session (revoke_user_session [sampleSession] "j").2 "j").1 = true ∧
    (revoke_user_session
        [{ sampleSession with is_active := false }] "j").1 = true := by
  exact ⟨rfl, rfl⟩

/-- C9 amended: `revoke_user_session` returns whether *any* row with the
jti exists (regardless of its active flag); calling it twice therefore
returns the same value both times (not false the second time); and —
under the database's unique-jti constraint — the jti is revoked
(`is_token_revoked`) after either call. -/
theorem c9_revocation_amended :
    ∀ (sessions : List UserSession) (jti : String),
      sessions.Pairwise (fun a b => a.token_jti ≠ b.token_jti) →
      (revoke_user_session sessions jti).1
          = sessions.any (fun s => s.token_jti == jti) ∧
      (revoke_user_session (revoke_user_session sessions jti).2 jti).1
          = (revoke_user_session sessions jti).1 ∧
      is_token_revoked (revoke_user_session sessions jti).2 jti = true ∧
      is_token_revoked
          (revoke_user_session (revoke_user_session sessions jti).2 jti).2 jti
        = true := by
  intro sessions jti hU
  by_cases h : sessions.any (fun s => s.token_jti == jti) = true
  · have h2 : (deactivateFirstByJti sessions jti).any
        (fun s => s.token_jti == jti) = true := by
      rw [deactivateFirstByJti_any]; exact h
    have hU2 := pairwise_jti_deactivateFirstByJti sessions jti hU
    refine ⟨?_, ?_, ?_, ?_⟩
    · simp [revoke_user_session, h]
    · simp [revoke_user_session, h, h2]
    · simp only [revoke_user_session, h, if_true]
      exact is_token_revoked_deactivateFirstByJti sessions jti hU
    · simp only [revoke_user_session, h, h2, if_true]
      exact is_token_revoked_deactivateFirstByJti _ jti hU2
  · have h' : sessions.any (fun s => s.token_jti == jti) = false := by
      simpa using h
    refine ⟨?_, ?_, ?_, ?_⟩
    · simp [revoke_user_session, h']
    · simp [revoke_user_session, h']
    · simp [revoke_user_session, h', is_token_revoked_of_not_any sessions jti h']
    · simp [revoke_user_session, h', is_token_revoked_of_not_any sessions jti h']

/-- Witness for C9 at the one-session table. -/
theorem c9_witness :
    (revoke_user_session [sampleSession] "j").1
        = [sampleSession].any (fun s => s.token_jti == "j") ∧
    (revoke_user_session (revoke_user_session [sampleSession] "j").2 "j").1
        = (revoke_user_session [sampleSession] "j").1 ∧
    is_token_revoked (revoke_user_session [sampleSession] "j").2 "j" = true ∧
    is_token_revoked
        (revoke_user_session (revoke_user_session [sampleSession] "j").2 "j").2 "j"
      = true :=
  c9_revocation_amended [sampleSession] "j" (by simp)

/-- C6 counterexample.  The claim says the just-added timestamp is
removed again whenever the request is denied.  In
`RateLimiter.is_allowed` (`app/core/rate_limiting.py`) it is not: with
limit 1 and one accepted request at t=100 in the window, the request at
t=101 is denied, yet its entry ("101", 101) stays in the set. -/
theorem c6_counterexample :
    (rateLimiter_is_allowed [("100", 100)] 1 60 101).1.1 = false ∧
    (rateLimiter_is_allowed [("100", 100)] 1 60 101).2
      = [("100", 100), ("101", 101)] := by
  exact ⟨rfl, rfl⟩

/-- `ZADD` of a member absent from the set appends it. -/
theorem zadd_fresh (z : ZSet) (m : String) (sc : Nat)
    (h : ∀ p ∈ z, p.1 ≠ m) : zadd z m sc = z ++ [(m, sc)] := by
  have hany : z.any (fun p => p.1 == m) = false := by
    simp only [List.any_eq_false]
    intro p hp
    simp [h p hp]
  simp [zadd, hany]

/-- `ZREM` of a freshly appended member restores the set. -/
theorem zrem_append_fresh (z : ZSet) (m : String) (sc : Nat)
    (h : ∀ p ∈ z, p.1 ≠ m) : zrem (z ++ [(m, sc)]) m = z := by
  simp only [zrem, List.filter_append]
  have h1 : z.filter (fun p => p.1 != m) = z := by
    rw [List.filter_eq_self]
    intro p hp
    simp [h p hp]
  simp [h1]

/-- C6 amended: the add-then-remove discipline the claim describes is the
one of `RateLimitMiddleware._check_rate_limit`
(`app/middleware/rate_limit.py`), and only up to second resolution: when
the second-resolution member `str(now)` is not already present after
pruning, a denied request leaves the pruned window unchanged (its entry
is added and removed again) and an accepted request adds exactly its one
entry.  `RateLimiter.is_allowed` in `app/core/rate_limiting.py` does not
remove the denied entry (see the counterexample); and two requests in
the same second share one member, so the set undercounts them. -/
theorem c6_middleware_window_accounting :
    ∀ (z : ZSet) (rate_limit window_size now : Nat),
      (∀ p ∈ zremrangebyscore z 0 ((now : Int) - (window_size : Int)),
        p.1 ≠ toString now) →
      (rate_limit ≤ (zremrangebyscore z 0 ((now : Int) - (window_size : Int))).length →
        middleware_check_rate_limit (.ok z) true rate_limit window_size now
          = ((false, 0, now + window_size),
             .ok (zremrangebyscore z 0 ((now : Int) - (window_size : Int))))) ∧
      (((zremrangebyscore z 0 ((now : Int) - (window_size : Int))).length < rate_limit) →
        middleware_check_rate_limit (.ok z) true rate_limit window_size now
          = ((true,
              rate_limit - (zremrangebyscore z 0 ((now : Int) - (window_size : Int))).length - 1,
              now + window_size),
             .ok (zremrangebyscore z 0 ((now : Int) - (window_size : Int))
                    ++ [(toString now, now)]))) := by
  intro z rate_limit window_size now hfresh
  constructor
  · intro hle
    simp only [middleware_check_rate_limit, zcard]
    rw [if_neg (by simp), zadd_fresh _ _ _ hfresh, if_pos hle,
        zrem_append_fresh _ _ _ hfresh]
  · intro hlt
    simp only [middleware_check_rate_limit, zcard]
    rw [if_neg (by simp), zadd_fresh _ _ _ hfresh, if_neg (by omega)]

/-- Witness for C6: limit 1, window 60, one accepted entry at t=100; the
request at t=101 is denied and the middleware's set is restored to the
pruned window. -/
theorem c6_witness :
    middleware_check_rate_limit (.ok [("100", 100)]) true 1 60 101
      = ((false, 0, 161), .ok (zremrangebyscore [("100", 100)] 0 41)) :=
  (c6_middleware_window_accounting [("100", 100)] 1 60 101 (by decide)).1 (by decide)

/-- C7 counterexample.  The claim says a store failure is never surfaced
to the caller.  The `check_rate_limit` dependency in
`app/core/rate_limiting.py` wraps no exception handling around
`rate_limiter.is_allowed`, so a failing Redis pipeline propagates out of
the dependency to the caller instead of allowing the request. -/
theorem c7_counterexample :
    check_rate_limit (.error "ConnectionError: redis unreachable")
        none "203.0.113.7" 100 60 0
      = .raised "ConnectionError: redis unreachable" := by
  rfl

/-- C7 amended: the fail-open policy holds for
`RateLimitMiddleware._check_rate_limit` (`app/middleware/rate_limit.py`):
every store exception is caught and converted to allow, and a missing
Redis client likewise allows; but the `check_rate_limit` dependency in
`app/core/rate_limiting.py` propagates store failures to the caller (see
the counterexample). -/
theorem c7_middleware_fails_open :
    ∀ (e : String) (store : Except String ZSet)
      (rate_limit window_size now : Nat),
      (middleware_check_rate_limit (.error e) true rate_limit window_size now).1
        = (true, rate_limit - 1, now + window_size) ∧
      (middleware_check_rate_limit store false rate_limit window_size now).1
        = (true, rate_limit - 1, now + window_size) := by
  intro e store rate_limit window_size now
  constructor
  · simp [middleware_check_rate_limit]
  · simp [middleware_check_rate_limit]

/-- `verify_refresh_token` succeeds when the token verifies, the user is
found and active, and an active session row matches the jti. -/
theorem verify_refresh_token_ok (tok : Jwt) (users : List UserRec)
    (sessions : List UserSession) (secret now : Nat) (td : TokenData)
    (user : UserRec) (s : UserSession)
    (hver : security_verify_token tok "refresh" secret now = .ok td)
    (hfind : users.find? (fun u => u.id == td.user_id) = some user)
    (hstatus : user.status = .active)
    (hsome : findActiveSession sessions user.id td.jti = some s) :
    verify_refresh_token (some tok) users sessions secret now
      = .ok (user, td.jti) := by
  simp [verify_refresh_token, hver, hfind, hstatus, hsome]

/-- `verify_refresh_token` rejects with 401 "Invalid or expired refresh
token" when no active session row matches the jti. -/
theorem verify_refresh_token_no_active_session (tok : Jwt)
    (users : List UserRec) (sessions : List UserSession) (secret now : Nat)
    (td : TokenData) (user : UserRec)
    (hver : security_verify_token tok "refresh" secret now = .ok td)
    (hfind : users.find? (fun u => u.id == td.user_id) = some user)
    (hstatus : user.status = .active)
    (hnone : findActiveSession sessions user.id td.jti = none) :
    verify_refresh_token (some tok) users sessions secret now
      = .error (.unauthorized "Invalid or expired refresh token") := by
  simp [verify_refresh_token, hver, hfind, hstatus, hnone]

/-- After the revoke-all loop, the user has no active session at all. -/
theorem findActiveSession_revoke_all (sessions : List UserSession)
    (uid j : String) :
    findActiveSession (revoke_all_for_user sessions uid) uid j = none := by
  induction sessions with
  | nil => rfl
  | cons s rest ih =>
    simp only [revoke_all_for_user, List.map_cons] at *
    simp only [findActiveSession] at *
    rw [List.find?_cons_of_neg]
    · exact ih
    · by_cases h1 : s.user_id == uid <;> by_cases h2 : s.is_active <;>
        simp [h1, h2]

/-- C1 counterexample.  The claim says a refresh presenting a
revoked-jti token fails with `SessionRevoked`, in particular after a
revoke-all logout.  The mounted `refresh_token` endpoint in
`app/routers/auth.py` performs no session/revocation check at all: after
the revoke-all loop has deactivated every session (so the presented jti
`"oldjti"` reports revoked), the routers refresh still succeeds and
mints a fresh pair. -/
theorem c1_counterexample :
    is_token_revoked (revoke_all_for_user [sampleRoutersSession] "u1") "oldjti"
      = true ∧
    (routers_refresh_token [sampleUser]
        (revoke_all_for_user [sampleRoutersSession] "u1")
        sampleRoutersRefreshTok 10 "na" "nr" 7 42).isOk = true := by
  exact ⟨rfl, rfl⟩

/-- C1 amended: the revocation check lives in the `verify_refresh_token`
dependency of the `app/api/auth.py` flow.  There, a well-signed,
unexpired refresh token whose jti has no active session row (absent or
deactivated) is rejected 401 "Invalid or expired refresh token" — the
`SessionRevoked` outcome — and in particular any table processed by the
revoke-all loop rejects the user's pre-logout refresh token.  The
`app/routers/auth.py` refresh endpoint has no such check (see the
counterexample). -/
theorem c1_api_refresh_rejects_revoked :
    ∀ (tok : Jwt) (users : List UserRec) (sessions : List UserSession)
      (secret now : Nat) (td : TokenData) (user : UserRec),
      security_verify_token tok "refresh" secret now = .ok td →
      users.find? (fun u => u.id == td.user_id) = some user →
      user.status = .active →
      (findActiveSession sessions user.id td.jti = none →
        verify_refresh_token (some tok) users sessions secret now
          = .error (.unauthorized "Invalid or expired refresh token")) ∧
      (∀ sessions2 : List UserSession,
        verify_refresh_token (some tok) users
            (revoke_all_for_user sessions2 user.id) secret now
          = .error (.unauthorized "Invalid or expired refresh token")) := by
  intro tok users sessions secret now td user hver hfind hstatus
  constructor
  · intro hnone
    exact verify_refresh_token_no_active_session tok users sessions secret now
      td user hver hfind hstatus hnone
  · intro sessions2
    exact verify_refresh_token_no_active_session tok users _ secret now
      td user hver hfind hstatus (findActiveSession_revoke_all sessions2 user.id td.jti)

/-- Witness for C1: `sampleRefreshTok` (jti `"jr"`) is well signed and
unexpired at time 10, `sampleUser` is active; with no session row for
`"jr"`, and likewise after revoking all of the user's sessions, the api
refresh dependency answers 401. -/
theorem c1_witness :
    verify_refresh_token (some sampleRefreshTok) [sampleUser] [] 42 10
      = .error (.unauthorized "Invalid or expired refresh token") ∧
    verify_refresh_token (some sampleRefreshTok) [sampleUser]
        (revoke_all_for_user [{ sampleSession with token_jti := "jr" }] "u1") 42 10
      = .error (.unauthorized "Invalid or expired refresh token") :=
  ⟨(c1_api_refresh_rejects_revoked sampleRefreshTok [sampleUser] [] 42 10
      { username := "alice", user_id := "u1", jti := "jr", token_type := "refresh" }
      sampleUser rfl rfl rfl).1 rfl,
   (c1_api_refresh_rejects_revoked sampleRefreshTok [sampleUser] [] 42 10
      { username := "alice", user_id := "u1", jti := "jr", token_type := "refresh" }
      sampleUser rfl rfl rfl).2 [{ sampleSession with token_jti := "jr" }]⟩

/-- After rotation, no active session carries the old jti any more,
provided jtis are unique in the table (the database constraint) and the
new jti differs from the old one (`uuid4` freshness). -/
theorem findActiveSession_rotate (sessions : List UserSession)
    (uid oldJti newJti : String) (now : Nat)
    (hU : sessions.Pairwise (fun a b => a.token_jti ≠ b.token_jti))
    (hne : newJti ≠ oldJti) :
    findActiveSession
        (rotateFirstActiveSession sessions uid oldJti newJti now) uid oldJti
      = none := by
  induction sessions with
  | nil => rfl
  | cons s rest ih =>
    rcases List.pairwise_cons.mp hU with ⟨hhead, htail⟩
    simp only [rotateFirstActiveSession]
    split
    case isTrue h =>
      obtain ⟨⟨h1, h2⟩, h3⟩ : (s.user_id = uid ∧ s.token_jti = oldJti) ∧
          s.is_active = true := by simpa using h
      simp only [findActiveSession]
      rw [List.find?_cons_of_neg _ (by simp [hne]),
          List.find?_eq_none.mpr]
      intro t ht
      have hj := hhead t ht
      rw [h2] at hj
      simp [hj.symm]
    case isFalse h =>
      simp only [findActiveSession] at *
      rw [List.find?_cons_of_neg _ (by simpa using h)]
      exact ih htail

/-- C3 counterexample.  The claim says that after every successful
refresh the old refresh token's jti is unusable for a second refresh.
The mounted `refresh_token` endpoint in `app/routers/auth.py` neither
checks nor rotates the presented session: refreshing with the same
refresh token twice succeeds both times. -/
theorem c3_counterexample :
    (routers_refresh_token [sampleUser] [] sampleRoutersRefreshTok
        10 "na" "nr" 7 42).isOk = true ∧
    ((routers_refresh_token [sampleUser] [] sampleRoutersRefreshTok
        10 "na" "nr" 7 42).toOption.elim false
      (fun r =>
        (routers_refresh_token [sampleUser] r.2 sampleRoutersRefreshTok
          11 "na2" "nr2" 8 42).isOk)) = true := by
  exact ⟨rfl, rfl⟩

/-- C3 amended: rotation holds in the `app/api/auth.py` flow.  A
successful api refresh returns a fresh token pair and rewrites the
matching session row's jti to the new refresh jti; a second refresh
presenting the same old token is then rejected 401 — under the unique-jti
table constraint and freshness of the new jti.  The routers refresh
endpoint does not rotate (see the counterexample). -/
theorem c3_api_refresh_rotates :
    ∀ (tok : Jwt) (users : List UserRec) (sessions : List UserSession)
      (secret now now2 : Nat) (td : TokenData) (user : UserRec)
      (s : UserSession) (accessJti refreshJti accessJti2 refreshJti2 : String),
      security_verify_token tok "refresh" secret now = .ok td →
      security_verify_token tok "refresh" secret now2 = .ok td →
      users.find? (fun u => u.id == td.user_id) = some user →
      user.status = .active →
      sessions.Pairwise (fun a b => a.token_jti ≠ b.token_jti) →
      findActiveSession sessions user.id td.jti = some s →
      refreshJti ≠ td.jti →
      api_refresh_token (some tok) users sessions secret now accessJti refreshJti
        = .ok (create_token_pair user.id user.username now accessJti refreshJti secret,
               rotateFirstActiveSession sessions user.id td.jti refreshJti now) ∧
      api_refresh_token (some tok) users
          (rotateFirstActiveSession sessions user.id td.jti refreshJti now)
          secret now2 accessJti2 refreshJti2
        = .error (.unauthorized "Invalid or expired refresh token") := by
  intro tok users sessions secret now now2 td user s accessJti refreshJti
    accessJti2 refreshJti2 hver hver2 hfind hstatus hU hsome hne
  constructor
  · rw [api_refresh_token,
        verify_refresh_token_ok tok users sessions secret now td user s
          hver hfind hstatus hsome]
    simp [hsome]
  · rw [api_refresh_token,
        verify_refresh_token_no_active_session tok users _ secret now2 td user
          hver2 hfind hstatus
          (findActiveSession_rotate sessions user.id td.jti refreshJti now hU hne)]

/-- Witness for C3: refreshing `sampleRefreshTokJ` (jti `"j"`) against
`[sampleSession]` succeeds and rotates the row to jti `"nr"`; presenting
the same token again is rejected 401. -/
theorem c3_witness :
    api_refresh_token (some sampleRefreshTokJ) [sampleUser] [sampleSession]
        42 10 "na" "nr"
      = .ok (create_token_pair "u1" "alice" 10 "na" "nr" 42,
             rotateFirstActiveSession [sampleSession] "u1" "j" "nr" 10) ∧
    api_refresh_token (some sampleRefreshTokJ) [sampleUser]
        (rotateFirstActiveSession [sampleSession] "u1" "j" "nr" 10)
        42 11 "na2" "nr2"
      = .error (.unauthorized "Invalid or expired refresh token") :=
  c3_api_refresh_rotates sampleRefreshTokJ [sampleUser] [sampleSession]
    42 10 11
    { username := "alice", user_id := "u1", jti := "j", token_type := "refresh" }
    sampleUser sampleSession "na" "nr" "na2" "nr2"
    rfl rfl rfl rfl (by simp) rfl (by decide)

/-- Under the unique-jti constraint, two rows sharing a jti are the same
row. -/
theorem jti_unique_of_pairwise {sessions : List UserSession}
    (hU : sessions.Pairwise (fun a b => a.token_jti ≠ b.token_jti)) :
    ∀ s ∈ sessions, ∀ t ∈ sessions, s.token_jti = t.token_jti → s = t := by
  induction sessions with
  | nil => intro s hs; exact absurd hs (List.not_mem_nil s)
  | cons a rest ih =>
    rcases List.pairwise_cons.mp hU with ⟨hhead, htail⟩
    intro s hs t ht heq
    rcases List.mem_cons.mp hs with hsa | hsr <;>
      rcases List.mem_cons.mp ht with hta | htr
    · rw [hsa, hta]
    · exact absurd (hsa ▸ heq) (hhead t htr)
    · exact absurd (hta ▸ heq).symm (hhead s hsr)
    · exact ih htail s hsr t htr heq

/-- After the revoke-all loop for a user, any jti that only ever belonged
to that user's rows has no active row left. -/
theorem is_token_revoked_revoke_all_of_owner (sessions : List UserSession)
    (uid jti : String)
    (hOwn : ∀ t ∈ sessions, t.token_jti = jti → t.user_id = uid) :
    is_token_revoked (revoke_all_for_user sessions uid) jti = true := by
  induction sessions with
  | nil => rfl
  | cons s rest ih =>
    have hOwnRest : ∀ t ∈ rest, t.token_jti = jti → t.user_id = uid :=
      fun t ht => hOwn t (List.mem_cons_of_mem s ht)
    simp only [revoke_all_for_user, List.map_cons] at *
    simp only [is_token_revoked] at *
    rw [List.find?_cons_of_neg]
    · exact ih hOwnRest
    · by_cases h1 : s.user_id == uid && s.is_active
      · simp only [h1, if_true]
        simp
      · simp only [h1, if_false]
        by_cases h2 : s.token_jti == jti
        · have huid : s.user_id = uid :=
            hOwn s (List.mem_cons_self s rest) (by simpa using h2)
          have hact : s.is_active = false := by
            rcases Bool.eq_false_or_eq_true s.is_active with ha | ha
            · exact absurd (by simp [huid, ha]) h1
            · exact ha
          simp [hact]
        · simp [h2]

/-- C2 counterexample.  The claim says a successful `change_password`
marks every previously active session of the user inactive.  The mounted
`change_password` endpoint in `app/routers/auth.py` succeeds — storing
the new hash and `updated_at` — without touching the session table at
all (the handler performs no session query), so the user's active
session with jti `"j"` still reports not revoked. -/
theorem c2_counterexample :
    routers_change_password sampleUser "pw" "newpw" 50
      = .ok { sampleUser with
                hashed_password := create_password_hash "newpw"
                updated_at := 50 } ∧
    is_token_revoked [sampleSession] "j" = false := by
  exact ⟨rfl, rfl⟩

/-- C2 amended: the behavior the claim describes is that of
`change_password` in `app/api/auth.py`: when the current password
verifies it stores the new hash, sets `updated_at`, and runs the
revoke-all loop, after which — under the unique-jti table constraint —
every one of the user's session jtis reports revoked.  The
`app/routers/auth.py` change-password endpoint does not revoke sessions
(see the counterexample). -/
theorem c2_api_change_password_revokes :
    ∀ (u : UserRec) (sessions : List UserSession)
      (current_password new_password : String) (now : Nat),
      verify_password current_password u.hashed_password = true →
      sessions.Pairwise (fun a b => a.token_jti ≠ b.token_jti) →
      api_change_password u sessions current_password new_password now
        = .ok ({ u with hashed_password := create_password_hash new_password,
                        updated_at := now },
               revoke_all_for_user sessions u.id) ∧
      ∀ s ∈ sessions, s.user_id = u.id →
        is_token_revoked (revoke_all_for_user sessions u.id) s.token_jti
          = true := by
  intro u sessions current_password new_password now hpw hU
  constructor
  · simp [api_change_password, hpw]
  · intro s hs huid
    apply is_token_revoked_revoke_all_of_owner
    intro t ht hjti
    have : t = s := jti_unique_of_pairwise hU t ht s hs hjti
    rw [this, huid]

/-- Witness for C2: `sampleUser` changes password from `"pw"` to
`"newpw"` at time 50 with the single active session `sampleSession`
(jti `"j"`); afterwards `"j"` reports revoked. -/
theorem c2_witness :
    api_change_password sampleUser [sampleSession] "pw" "newpw" 50
      = .ok ({ sampleUser with
                 hashed_password := create_password_hash "newpw"
                 updated_at := 50 },
             revoke_all_for_user [sampleSession] "u1") ∧
    is_token_revoked (revoke_all_for_user [sampleSession] "u1") "j" = true :=
  ⟨(c2_api_change_password_revokes sampleUser [sampleSession] "pw" "newpw" 50
      (by decide) (by simp)).1,
   (c2_api_change_password_revokes sampleUser [sampleSession] "pw" "newpw" 50
      (by decide) (by simp)).2 sampleSession (by simp) rfl⟩

/-- C4 counterexample.  The claim says that while `locked_until` lies in
the future every login attempt fails with `AccountLocked`, even with the
correct password.  The mounted `login_user` endpoint in
`app/routers/auth.py` never consults `locked_until` (and never
increments `login_attempts` on failure): a user locked until time 99999
logs in successfully at time 0 with the correct password. -/
theorem c4_counterexample :
    (routers_login
        [{ sampleUser with locked_until := some 99999, login_attempts := 5 }]
        [] "alice" "pw" false 0 "na" "nr" 3 42).isOk = true := by
  rfl

/-- Mutating the single row found by the login query. -/
theorem replaceFirstUser_singleton (u u' : UserRec) (p : UserRec → Bool)
    (h : p u = true) : replaceFirstUser [u] p u' = [u'] := by
  simp [replaceFirstUser, h]

/-- C4 amended: the lockout state machine the claim describes is
implemented by `login_user` in `app/api/auth.py` (the routers login has
none of it — see the counterexample).  Over a single-user table:
(1) a credential failure while not locked increments `login_attempts`
and, exactly when the new count reaches 5, sets
`locked_until = now + 30 minutes`, answering 401;
(2) in particular the failure that takes the counter from 4 to 5 sets
the lockout;
(3) while `locked_until` lies strictly in the future, login answers 423
for *every* password — the lockout check precedes password
verification;
(4) a successful login (not locked, password verifies, account active)
resets `login_attempts` to 0 and clears `locked_until`. -/
theorem c4_api_login_lockout :
    (∀ (u : UserRec) (sessions : List UserSession) (username password : String)
       (rm : Bool) (now : Nat) (aj rj : String) (sid secret : Nat),
      api_login_lookup username u = true →
      locked_after u.locked_until now = false →
      verify_password password u.hashed_password = false →
      (api_login [u] sessions username password rm now aj rj sid secret).1
          = .error (.unauthorized "Invalid credentials") ∧
      (api_login [u] sessions username password rm now aj rj sid secret).2.1
          = [{ u with
                 login_attempts := u.login_attempts + 1
                 locked_until :=
                   if 5 ≤ u.login_attempts + 1 then some (now + 30 * 60)
                   else u.locked_until }]) ∧
    (∀ (u : UserRec) (sessions : List UserSession) (username password : String)
       (rm : Bool) (now : Nat) (aj rj : String) (sid secret : Nat),
      api_login_lookup username u = true →
      locked_after u.locked_until now = false →
      verify_password password u.hashed_password = false →
      u.login_attempts = 4 →
      (api_login [u] sessions username password rm now aj rj sid secret).2.1
          = [{ u with login_attempts := 5,
                      locked_until := some (now + 30 * 60) }]) ∧
    (∀ (u : UserRec) (sessions : List UserSession) (username password : String)
       (rm : Bool) (now : Nat) (aj rj : String) (sid secret : Nat) (t : Nat),
      api_login_lookup username u = true →
      u.locked_until = some t →
      now < t →
      (api_login [u] sessions username password rm now aj rj sid secret).1
          = .error
              (.locked "Account temporarily locked due to too many failed attempts")) ∧
    (∀ (u : UserRec) (sessions : List UserSession) (username password : String)
       (rm : Bool) (now : Nat) (aj rj : String) (sid secret : Nat),
      api_login_lookup username u = true →
      locked_after u.locked_until now = false →
      verify_password password u.hashed_password = true →
      u.status = .active →
      (api_login [u] sessions username password rm now aj rj sid secret).1
          = .ok (create_token_pair u.id u.username now aj rj secret) ∧
      (api_login [u] sessions username password rm now aj rj sid secret).2.1
          = [{ u with login_attempts := 0, locked_until := none,
                      last_login := some now }]) := by
  refine ⟨?_, ?_, ?_, ?_⟩
  · intro u sessions username password rm now aj rj sid secret hlook hnl hpw
    constructor
    · simp [api_login, List.find?_cons_of_pos _ hlook, hnl, hpw]
    · simp [api_login, List.find?_cons_of_pos _ hlook, hnl, hpw,
            replaceFirstUser_singleton _ _ _ hlook]
  · intro u sessions username password rm now aj rj sid secret hlook hnl hpw h4
    simp [api_login, List.find?_cons_of_pos _ hlook, hnl, hpw,
          replaceFirstUser_singleton _ _ _ hlook, h4]
  · intro u sessions username password rm now aj rj sid secret t hlook hl hfut
    have : locked_after u.locked_until now = true := by
      simp [locked_after, hl, hfut]
    simp [api_login, List.find?_cons_of_pos _ hlook, this]
  · intro u sessions username password rm now aj rj sid secret hlook hnl hpw hact
    constructor
    · simp [api_login, List.find?_cons_of_pos _ hlook, hnl, hpw, hact]
    · simp [api_login, List.find?_cons_of_pos _ hlook, hnl, hpw, hact,
            replaceFirstUser_singleton _ _ _ hlook]

/-- Witness for C4: each part of the lockout state machine exercised on
concrete users — a wrong password at 0 failures, the failure that takes
the counter from 4 to 5, a correct password while locked until 200 at
time 100, and a successful login that resets the counters. -/
theorem c4_witness :
    ((api_login [sampleUser] [] "alice" "wrong" false 100 "na" "nr" 3 42).1
        = .error (.unauthorized "Invalid credentials") ∧
     (api_login [sampleUser] [] "alice" "wrong" false 100 "na" "nr" 3 42).2.1
        = [{ sampleUser with login_attempts := 1 }]) ∧
    (api_login [{ sampleUser with login_attempts := 4 }] []
        "alice" "wrong" false 100 "na" "nr" 3 42).2.1
      = [{ sampleUser with login_attempts := 5,
                           locked_until := some (100 + 30 * 60) }] ∧
    (api_login [{ sampleUser with locked_until := some 200 }] []
        "alice" "pw" false 100 "na" "nr" 3 42).1
      = .error
          (.locked "Account temporarily locked due to too many failed attempts") ∧
    (api_login [sampleUser] [] "alice" "pw" false 100 "na" "nr" 3 42).1
      = .ok (create_token_pair "u1" "alice" 100 "na" "nr" 42) ∧
    (api_login [sampleUser] [] "alice" "pw" false 100 "na" "nr" 3 42).2.1
      = [{ sampleUser with login_attempts := 0, locked_until := none,
                           last_login := some 100 }] := by
  refine ⟨⟨?_, ?_⟩, ?_, ?_, ?_, ?_⟩
  · exact (c4_api_login_lockout.1 sampleUser [] "alice" "wrong" false 100
      "na" "nr" 3 42 (by decide) rfl (by decide)).1
  · exact (c4_api_login_lockout.1 sampleUser [] "alice" "wrong" false 100
      "na" "nr" 3 42 (by decide) rfl (by decide)).2
  · exact c4_api_login_lockout.2.1 { sampleUser with login_attempts := 4 } []
      "alice" "wrong" false 100 "na" "nr" 3 42 (by decide) rfl (by decide) rfl
  · exact c4_api_login_lockout.2.2.1 { sampleUser with locked_until := some 200 }
      [] "alice" "pw" false 100 "na" "nr" 3 42 200 (by decide) rfl (by decide)
  · exact (c4_api_login_lockout.2.2.2 sampleUser [] "alice" "pw" false 100
      "na" "nr" 3 42 (by decide) rfl (by decide) rfl).1
  · exact (c4_api_login_lockout.2.2.2 sampleUser [] "alice" "pw" false 100
      "na" "nr" 3 42 (by decide) rfl (by decide) rfl).2
